import Mathlib

/-!
Verification of the AI Builders podcast system against its specification.

The Python sources are shallowly embedded: pure functions become Lean
functions, SQLite tables become lists of rows threaded through the
operations, machine floats for cost estimates become rationals, and the
external model / TTS calls become `Except` oracles supplied as arguments.
Python strings are Lean `String`; the string operations the sources use
(substring test, lower, strip, split, join, replace) are defined below by
structural recursion over the character data so that every definition
evaluates, with ASCII semantics, which covers every input the system
produces.
-/

/-- The apostrophe character, used inside several literal strings of the
source (for example the hard coded fallback dialogue). -/
def aposChar : Char := Char.ofNat 39

/-- One character apostrophe string. -/
def aposStr : String := String.singleton aposChar

/-- Substring scan over character lists: the needle is a prefix of some
suffix of the hay.  Structurally recursive so that it evaluates. -/
def strContains (hay needle : List Char) : Bool :=
  needle.isPrefixOf hay ||
    match hay with
    | [] => false
    | _ :: t => strContains t needle

/-- Python substring test `needle in hay`, as a Bool. -/
def pyIn (needle hay : String) : Bool := strContains hay.data needle.data

/-- The substring scan decides the infix relation. -/
theorem strContains_iff_infix (hay needle : List Char) :
    strContains hay needle = true ↔ needle <:+: hay := by
  induction hay with
  | nil =>
    rw [strContains]
    cases needle with
    | nil => simp
    | cons c t => simp [List.isPrefixOf]
  | cons a t ih =>
    rw [strContains, Bool.or_eq_true, ih, List.infix_cons_iff,
      List.isPrefixOf_iff_prefix]

/-- The Python substring test decides the infix relation on the data. -/
theorem pyIn_eq_true_iff (needle hay : String) :
    pyIn needle hay = true ↔ needle.data <:+: hay.data :=
  strContains_iff_infix hay.data needle.data

/-- Python `str.lower` (ASCII, which covers every input the system
produces; core `String.toLower` maps exactly the ASCII letters). -/
def pyLower (s : String) : String := String.mk (s.data.map Char.toLower)

/-- Python `str.upper` (ASCII). -/
def pyUpper (s : String) : String := String.mk (s.data.map Char.toUpper)

/-- Python whitespace as stripped by `str.strip` and matched by a
backslash-s pattern (ASCII range). -/
def isPyWS (c : Char) : Bool :=
  c == ' ' || c == '\t' || c == '\n' || c == '\r' ||
    c == Char.ofNat 11 || c == Char.ofNat 12

/-- Python `str.strip()`. -/
def pyStrip (s : String) : String :=
  String.mk (((s.data.dropWhile isPyWS).reverse.dropWhile isPyWS).reverse)

/-- Python `str.startswith`. -/
def pyStartsWith (s pre : String) : Bool := pre.data.isPrefixOf s.data

/-- Drop the first n characters of a string. -/
def pyDropChars (n : Nat) (s : String) : String := String.mk (s.data.drop n)

/-- Split at every character satisfying the predicate (the pieces keep
empty runs, like Python `str.split(sep)` for a one character sep). -/
def splitWhen (p : Char → Bool) : List Char → List (List Char)
  | [] => [[]]
  | c :: rest =>
    let r := splitWhen p rest
    if p c then [] :: r
    else
      match r with
      | [] => [[c]]
      | h :: t => (c :: h) :: t

/-- Python `s.split(sep)` for a one character separator. -/
def pySplitChar (sep : Char) (s : String) : List String :=
  (splitWhen (fun c => c == sep) s.data).map String.mk

/-- Join pieces with a separator (Python `sep.join`). -/
def joinWith (sep : List Char) : List (List Char) → List Char
  | [] => []
  | [x] => x
  | x :: y :: rest => x ++ sep ++ joinWith sep (y :: rest)

/-- Python `sep.join(pieces)`. -/
def pyJoin (sep : String) (xs : List String) : String :=
  String.mk (joinWith sep.data (xs.map String.data))

/-- Multi character split, fuelled by the length of the text so that every
recursion is structural (the fuel is never exhausted). -/
def splitOnGo (pat : List Char) : Nat → List Char → List (List Char)
  | _, [] => [[]]
  | 0, s => [s]
  | fuel + 1, c :: rest =>
    if pat.isPrefixOf (c :: rest) then
      [] :: splitOnGo pat fuel (List.drop (pat.length - 1) rest)
    else
      match splitOnGo pat fuel rest with
      | [] => [[c]]
      | h :: t => (c :: h) :: t

/-- Python `s.split(pat)` for a non empty multi character separator. -/
def pySplitOnStr (pat s : String) : List String :=
  (splitOnGo pat.data s.data.length s.data).map String.mk

/-- Replacement body of `pyReplace`, fuelled like `splitOnGo`. -/
def replaceGo (pat rep : List Char) : Nat → List Char → List Char
  | _, [] => []
  | 0, s => s
  | fuel + 1, c :: rest =>
    if pat.isPrefixOf (c :: rest) then
      rep ++ replaceGo pat rep fuel (List.drop (pat.length - 1) rest)
    else c :: replaceGo pat rep fuel rest

/-- Python `s.replace(pat, rep)`: every non overlapping occurrence, left
to right.  The empty pattern (which Python treats as matching between all
characters) never occurs in the configuration and maps to the identity. -/
def pyReplace (s pat rep : String) : String :=
  if pat.data.isEmpty then s
  else String.mk (replaceGo pat.data rep.data s.data.length s.data)

/-- Lexicographic comparison of character lists by code point, the
comparison Python uses on strings. -/
def charListLt : List Char → List Char → Bool
  | [], [] => false
  | [], _ :: _ => true
  | _ :: _, [] => false
  | a :: as, b :: bs => a < b || (a == b && charListLt as bs)

/-- Python `<` on strings. -/
def strLt (a b : String) : Bool := charListLt a.data b.data

/-- Python `line[line.find(":")+1:]`: everything after the first colon;
the whole string when there is no colon (find returns -1). -/
def afterFirstColon (s : String) : String :=
  if s.data.any (fun c => c == ':') then
    String.mk ((s.data.dropWhile (fun c => ! (c == ':'))).drop 1)
  else s

/-- Lookup in an association list, mirroring a Python dict built without
duplicate keys. -/
def alookup {β : Type} : List (String × β) → String → Option β
  | [], _ => none
  | (k, v) :: rest, key => if k == key then some v else alookup rest key

/-- Python `len(text.split())`: number of maximal runs of non-whitespace. -/
def word_count (t : String) : Nat :=
  ((splitWhen isPyWS t.data).filter (fun w => ! w.isEmpty)).length

/-- models.py `DialogueSegment`: one speaker turn or music cue.  The
`metadata` dict carries only string values in the observed code. -/
structure DialogueSegment where
  speaker : String
  text : String
  timestamp : Nat
  metadata : List (String × String) := []
deriving DecidableEq

/-- models.py `TransformationResult`; languages are carried as their
`.value` strings, terminology mappings as an association list. -/
structure TransformationResult where
  original_language : String
  target_language : String
  original_content : List DialogueSegment
  transformed_content : List DialogueSegment
  regional_adaptations : List String
  terminology_mappings : List (String × String)
deriving DecidableEq

/-! ## Orchestrator: episode structure validation (orchestrator.py) -/

/-- The warning literal appended by `_validate_episode_structure` when the
episode has fewer than 8 spoken segments. -/
def too_short_warning (n : Nat) : String :=
  "Episode may be too short: only " ++ toString n ++ " spoken segments"

/-- The segments whose speaker is not the MUSIC sentinel. -/
def spoken_segments (d : List DialogueSegment) : List DialogueSegment :=
  d.filter (fun s => ! (s.speaker == "MUSIC"))

/-- The literal i-apostrophe-m tested for by the duplicate introduction
check. -/
def iAmStr : String := "i" ++ aposStr ++ "m"

/-- Duplicate introduction scan over the first segments: a warning is
produced when a speaker introduces themselves twice.  `seen` is the
`host_intros` dict of the source. -/
def dup_intro_warnings : List DialogueSegment → List String → List String
  | [], _ => []
  | s :: rest, seen =>
    if s.speaker == "MUSIC" then dup_intro_warnings rest seen
    else
      let text := pyLower s.text
      if pyIn iAmStr text && pyIn (pyLower s.speaker) (pyLower text) then
        (if seen.contains s.speaker then
          ["Potential duplicate introduction for " ++ s.speaker]
         else []) ++ dup_intro_warnings rest (s.speaker :: seen)
      else dup_intro_warnings rest seen

/-- The AI disclosure phrases of `_validate_episode_structure`. -/
def ai_terms : List String :=
  ["ai host", "language model", "chatgpt", "claude", "llm"]

/-- Whether any non music segment of the given list mentions one of the
AI disclosure phrases. -/
def has_ai_disclosure (segs : List DialogueSegment) : Bool :=
  segs.any (fun s =>
    ! (s.speaker == "MUSIC") && ai_terms.any (fun t => pyIn t (pyLower s.text)))

/-- Result dictionary of `_validate_episode_structure`; the two float
statistics are carried as rationals. -/
structure ValidationResult where
  valid : Bool
  warnings : List String
  total_segments : Nat
  spoken_count : Nat
  total_words : Nat
  avg_words_per_segment : ℚ
  estimated_duration_minutes : ℚ
deriving Repr

/-- orchestrator.py `_validate_episode_structure`: length check (the only
check that clears `valid`), duplicate introduction scan over the first 6
segments, AI disclosure scan over the first 4, then word statistics. -/
def validate_episode_structure (dialogue : List DialogueSegment) : ValidationResult :=
  let spoken := spoken_segments dialogue
  let lengthWarnings :=
    if spoken.length < 8 then [too_short_warning spoken.length] else []
  let valid := if spoken.length < 8 then false else true
  let dupWarnings := dup_intro_warnings (dialogue.take 6) []
  let discWarnings :=
    if has_ai_disclosure (dialogue.take 4) then []
    else ["Missing AI host disclosure in introduction"]
  let totalWords := (spoken.map (fun s => word_count s.text)).sum
  { valid := valid
    warnings := lengthWarnings ++ dupWarnings ++ discWarnings
    total_segments := dialogue.length
    spoken_count := spoken.length
    total_words := totalWords
    avg_words_per_segment := (totalWords : ℚ) / (max 1 spoken.length : ℚ)
    estimated_duration_minutes := (totalWords : ℚ) / 150 }

/-! ## Cache Store (cache.py `IntelligentCache`)

The SQLite `claude_cache` table becomes a list of rows.  The cache key of
the source is `md5(f"{prompt}_{model}")`; md5 of equal inputs is equal, so
the key is modelled as the pre-hash string itself (the digest step only
renames keys injectively up to md5 collisions, which the design treats as
impossible).  `INSERT OR REPLACE` on the primary key deletes every row
with the same key and appends the new row.  Times are integers in the
same unit as the TTL. -/

/-- Row of the `claude_cache` table. -/
structure ClaudeCacheRow where
  cache_key : String
  response : String
  model : String
  timestamp : Int
  token_count : Int
  cost_estimate : ℚ
deriving DecidableEq

/-- cache.py: the pre-hash cache key string `f"{prompt}_{model}"`. -/
def cache_key (prompt model : String) : String := prompt ++ "_" ++ model

/-- cache.py `_estimate_claude_cost` (USD per token by model family). -/
def estimate_claude_cost (token_count : Int) (model : String) : ℚ :=
  if pyIn "opus" model then (token_count : ℚ) * (15 / 1000000)
  else if pyIn "sonnet" model then (token_count : ℚ) * (3 / 1000000)
  else (token_count : ℚ) * (1 / 4000000)

/-- cache.py `cache_claude_response`: INSERT OR REPLACE keyed on
`cache_key`, stamped with the current time `now`. -/
def cache_claude_response (db : List ClaudeCacheRow) (now : Int)
    (prompt response model : String) (token_count : Int) : List ClaudeCacheRow :=
  let key := cache_key prompt model
  (db.filter (fun r => ! (r.cache_key == key))) ++
    [{ cache_key := key, response := response, model := model,
       timestamp := now, token_count := token_count,
       cost_estimate := estimate_claude_cost token_count model }]

/-- cache.py `get_cached_claude_response`: SELECT the row for the key and
return its response only while `now - timestamp < ttl`.  The query writes
nothing, so the table is returned unchanged as the second component. -/
def get_cached_claude_response (db : List ClaudeCacheRow) (now ttl : Int)
    (prompt model : String) : Option String × List ClaudeCacheRow :=
  match db.find? (fun r => r.cache_key == cache_key prompt model) with
  | some r => (if now - r.timestamp < ttl then some r.response else none, db)
  | none => (none, db)

/-! ## Audio Pipeline (audio_pipeline.py `AudioProductionPipeline`) -/

/-- One queued request of `queue_audio_generation` or of the standard
intro/outro helpers.  The voice config dict is flattened to the fields the
batch loop reads; the float queue time and the priority label are never
read by `process_audio_batch` and are omitted. -/
structure AudioRequest where
  text : String
  voice_id : String
  prerecorded : Bool := false
  prerecorded_path : Option String := none
  sequence : Int := 0
deriving DecidableEq

/-- The audio cache table, keyed like the source on the pre-hash string
`f"{text}_{voice_id}"` (same md5 modelling as the claude cache). -/
abbrev AudioCacheMap := List (String × String)

/-- cache.py audio cache key. -/
def audio_cache_key (text voice_id : String) : String := text ++ "_" ++ voice_id

/-- cache.py `get_cached_audio_file`. -/
def get_cached_audio_file (db : AudioCacheMap) (text voice_id : String) : Option String :=
  alookup db (audio_cache_key text voice_id)

/-- cache.py `cache_audio_file` (INSERT OR REPLACE; only the path matters
to the pipeline logic). -/
def cache_audio_file (db : AudioCacheMap) (text voice_id file_path : String) : AudioCacheMap :=
  (db.filter (fun r => ! (r.1 == audio_cache_key text voice_id))) ++
    [(audio_cache_key text voice_id, file_path)]

/-- The first sort key of `process_audio_batch`: by voice id, then by
sequence (Python tuple comparison, as a weak order for a stable sort;
Python sorts are stable, as is the insertion sort used to model them). -/
def byVoiceSeq (a b : AudioRequest) : Bool :=
  strLt a.voice_id b.voice_id ||
    (a.voice_id == b.voice_id && a.sequence ≤ b.sequence)

/-- The first sort key as a decidable relation. -/
def voiceSeqLe (a b : AudioRequest) : Prop := byVoiceSeq a b = true

instance : DecidableRel voiceSeqLe :=
  fun a b => inferInstanceAs (Decidable (byVoiceSeq a b = true))

/-- The final sort key of `process_audio_batch`: sequence only. -/
def seqLe (a b : String × Int) : Prop := a.2 ≤ b.2

instance : DecidableRel seqLe := fun a b => Int.decLe a.2 b.2

instance : IsTotal (String × Int) seqLe := ⟨fun a b => Int.le_total a.2 b.2⟩

instance : IsTrans (String × Int) seqLe :=
  ⟨fun _ _ _ h1 h2 => le_trans h1 h2⟩

/-- Body of the batch loop for one item: pre-recorded items contribute
their recorded path (or nothing), cached items with a truthy (non empty)
path whose file still exists are reused, otherwise the TTS oracle `gen`
is consulted; a successful generation is written back to the audio cache.
Returns the optional (file, sequence) pair and the updated cache. -/
def resolve_audio_item (fileExists : String → Bool) (gen : String → String → Option String)
    (db : AudioCacheMap) (r : AudioRequest) : Option (String × Int) × AudioCacheMap :=
  if r.prerecorded then
    match r.prerecorded_path with
    | some p => (some (p, r.sequence), db)
    | none => (none, db)
  else
    match get_cached_audio_file db r.text r.voice_id with
    | some f =>
      if ! (f == "") && fileExists f then (some (f, r.sequence), db)
      else
        match gen r.text r.voice_id with
        | some g => (some (g, r.sequence), cache_audio_file db r.text r.voice_id g)
        | none => (none, db)
    | none =>
      match gen r.text r.voice_id with
      | some g => (some (g, r.sequence), cache_audio_file db r.text r.voice_id g)
      | none => (none, db)

/-- The batch loop over the voice-sorted queue, threading the audio cache. -/
def resolve_audio_queue (fileExists : String → Bool) (gen : String → String → Option String) :
    List AudioRequest → AudioCacheMap → List (String × Int) × AudioCacheMap
  | [], db => ([], db)
  | r :: rest, db =>
    let step := resolve_audio_item fileExists gen db r
    let tail := resolve_audio_queue fileExists gen rest step.2
    (match step.1 with
     | some pair => pair :: tail.1
     | none => tail.1, tail.2)

/-- The (file, sequence) pairs of a batch after the final re-sort by
sequence number (`generated_files_with_sequence` just before the return). -/
def sorted_resolved (fileExists : String → Bool) (gen : String → String → Option String)
    (queue : List AudioRequest) (db : AudioCacheMap) : List (String × Int) :=
  List.insertionSort seqLe
    (resolve_audio_queue fileExists gen (List.insertionSort voiceSeqLe queue) db).1

/-- audio_pipeline.py `process_audio_batch`: early-out on an empty queue,
first sort by (voice id, sequence), resolve each item against cache and
TTS oracle, clear the queue, re-sort the results by sequence and return
the file paths.  Result: (file paths, audio cache after, queue after). -/
def process_audio_batch (fileExists : String → Bool) (gen : String → String → Option String)
    (queue : List AudioRequest) (db : AudioCacheMap) :
    List String × AudioCacheMap × List AudioRequest :=
  if queue.isEmpty then ([], db, queue)
  else
    ((sorted_resolved fileExists gen queue db).map (fun p => p.1),
     (resolve_audio_queue fileExists gen (List.insertionSort voiceSeqLe queue) db).2,
     [])

/-! ## Supporting lemmas -/

/-- Every warning produced by the duplicate introduction scan is of the
fixed `Potential duplicate introduction for` shape. -/
theorem dup_intro_warnings_shape :
    ∀ (segs : List DialogueSegment) (seen : List String),
      ∀ w ∈ dup_intro_warnings segs seen,
        ∃ sp, w = "Potential duplicate introduction for " ++ sp := by
  intro segs
  induction segs with
  | nil => intro seen w hw; simp [dup_intro_warnings] at hw
  | cons s rest ih =>
    intro seen w hw
    by_cases hmus : (s.speaker == "MUSIC") = true
    · rw [dup_intro_warnings, if_pos hmus] at hw
      exact ih seen w hw
    · rw [dup_intro_warnings, if_neg hmus] at hw
      by_cases hintro :
          (pyIn iAmStr (pyLower s.text) &&
            pyIn (pyLower s.speaker) (pyLower (pyLower s.text))) = true
      · rw [if_pos hintro] at hw
        rcases List.mem_append.mp hw with h1 | h2
        · by_cases hseen : (seen.contains s.speaker) = true
          · rw [if_pos hseen] at h1
            simp at h1
            exact ⟨s.speaker, h1⟩
          · rw [if_neg hseen] at h1
            simp at h1
        · exact ih _ w h2
      · rw [if_neg hintro] at hw
        exact ih seen w hw

/-- The first character of a too-short warning is E. -/
theorem too_short_warning_head (n : Nat) :
    (too_short_warning n).data.head? = some 'E' := by
  show (("Episode may be too short: only " ++ toString n ++
    " spoken segments") : String).data.head? = some 'E'
  rw [String.data_append, String.data_append]
  rfl

/-- A too-short warning is never a duplicate introduction warning. -/
theorem too_short_warning_ne_dup (n : Nat) (sp : String) :
    too_short_warning n ≠ "Potential duplicate introduction for " ++ sp := by
  intro h
  have h2 := congrArg (fun s : String => s.data.head?) h
  simp only at h2
  rw [too_short_warning_head, String.data_append] at h2
  have h3 : (("Potential duplicate introduction for " : String).data ++
      sp.data).head? = some 'P' := rfl
  rw [h3] at h2
  exact absurd (Option.some.inj h2) (by decide)

/-- A too-short warning is never the disclosure warning. -/
theorem too_short_warning_ne_disclosure (n : Nat) :
    too_short_warning n ≠ "Missing AI host disclosure in introduction" := by
  intro h
  have h2 := congrArg (fun s : String => s.data.head?) h
  simp only at h2
  rw [too_short_warning_head] at h2
  exact absurd (Option.some.inj h2) (by decide)

/-- The substring `too short` occurs in every too-short warning. -/
theorem pyIn_too_short (n : Nat) :
    pyIn "too short" (too_short_warning n) = true := by
  rw [pyIn_eq_true_iff]
  simp only [too_short_warning, String.data_append]
  have h : ("too short" : String).data <:+:
      ("Episode may be too short: only " : String).data := by
    rw [← strContains_iff_infix]
    rfl
  have h2 : ("Episode may be too short: only " : String).data <+:
      (("Episode may be too short: only " : String).data ++ (toString n).data) ++
        (" spoken segments" : String).data :=
    (List.prefix_append _ _).trans (List.prefix_append _ _)
  exact h.trans h2.isInfix

/-- A row filtered for not matching a key is never found under that key. -/
theorem find?_key_filter_ne (db : List ClaudeCacheRow) (key : String) :
    (db.filter (fun r => ! (r.cache_key == key))).find?
      (fun r => r.cache_key == key) = none :=
  List.find?_eq_none.mpr (fun x hx => by
    simp [List.mem_filter] at hx
    simp [hx.2])

/-- After a put, the stored row for the written key is the new row. -/
theorem cache_find_after_put (db : List ClaudeCacheRow) (now : Int)
    (p v m : String) (tok : Int) :
    (cache_claude_response db now p v m tok).find?
        (fun r => r.cache_key == cache_key p m) =
      some { cache_key := cache_key p m, response := v, model := m,
             timestamp := now, token_count := tok,
             cost_estimate := estimate_claude_cost tok m } := by
  unfold cache_claude_response
  rw [List.find?_append, find?_key_filter_ne]
  simp [List.find?]

/-- C3: two puts under the same (prompt, model) fingerprint leave exactly
one retrievable row for that fingerprint, and a fresh get returns the
second value: the second write overwrites the first, never duplicating. -/
theorem cache_put_put_overwrites (db : List ClaudeCacheRow)
    (p m v1 v2 : String) (t1 t2 now ttl k1 k2 : Int)
    (hfresh : now - t2 < ttl) :
    ((cache_claude_response (cache_claude_response db t1 p v1 m k1) t2 p v2 m k2).filter
        (fun r => r.cache_key == cache_key p m)).length = 1 ∧
    (get_cached_claude_response
        (cache_claude_response (cache_claude_response db t1 p v1 m k1) t2 p v2 m k2)
        now ttl p m).1 = some v2 := by
  constructor
  · simp [cache_claude_response, List.filter_append, List.filter_filter]
  · simp [get_cached_claude_response, cache_find_after_put, hfresh]

/-- Witness for C3 at a concrete instance. -/
theorem cache_put_put_overwrites_witness :
    ((6 : Int) - 5 < 24) ∧
    (((cache_claude_response (cache_claude_response [] 1 "p" "v1" "mod" 3) 5 "p" "v2" "mod" 4).filter
        (fun r => r.cache_key == cache_key "p" "mod")).length = 1 ∧
     (get_cached_claude_response
        (cache_claude_response (cache_claude_response [] 1 "p" "v1" "mod" 3) 5 "p" "v2" "mod" 4)
        6 24 "p" "mod").1 = some "v2") :=
  ⟨by decide, cache_put_put_overwrites [] "p" "mod" "v1" "v2" 1 5 6 24 3 4 (by decide)⟩

/-- C4: an entry written at time T is a hit strictly before T + TTL and a
miss from T + TTL on; the miss leaves the row in place (the table is
returned unchanged), exactly like an absent entry. -/
theorem cache_ttl_expiry (db : List ClaudeCacheRow) (p v m : String)
    (tok T ttl t : Int) :
    get_cached_claude_response (cache_claude_response db T p v m tok) t ttl p m =
      ((if t < T + ttl then some v else none),
        cache_claude_response db T p v m tok) ∧
    (get_cached_claude_response [] t ttl p m).1 = none := by
  constructor
  · simp [get_cached_claude_response, cache_find_after_put,
      show t - T < ttl ↔ t < T + ttl from by omega]
  · simp [get_cached_claude_response]

/-- C9: the pre-hash key string f-prompt-underscore-model is not
injective: the pairs (a_b, c) and (a, b_c) produce the same key, and a
value cached under the first pair is returned by a get under the second. -/
theorem cache_key_not_injective :
    cache_key "a_b" "c" = cache_key "a" "b_c" ∧
    ¬ ("a_b" = "a" ∧ "c" = "b_c") ∧
    (get_cached_claude_response
        (cache_claude_response [] 0 "a_b" "resp" "c" 10) 0 1 "a" "b_c").1 =
      some "resp" := by
  refine ⟨rfl, by decide, ?_⟩
  decide

/-- C8: the validation verdict is exactly the 8-spoken-segment length
check: fewer than 8 spoken segments yields valid = false together with a
warning containing "too short", while 8 or more yields valid = true and no
too-short warning of any count. -/
theorem validate_episode_too_short (d : List DialogueSegment) :
    ((validate_episode_structure d).valid =
        decide (8 ≤ (spoken_segments d).length)) ∧
    ((spoken_segments d).length < 8 →
      ∃ w ∈ (validate_episode_structure d).warnings, pyIn "too short" w = true) ∧
    (8 ≤ (spoken_segments d).length →
      ∀ n, too_short_warning n ∉ (validate_episode_structure d).warnings) := by
  refine ⟨?_, ?_, ?_⟩
  · by_cases h : (spoken_segments d).length < 8
    · simp [validate_episode_structure, h]
    · simp [validate_episode_structure, h]
      omega
  · intro h
    refine ⟨too_short_warning (spoken_segments d).length, ?_, pyIn_too_short _⟩
    simp [validate_episode_structure, h]
  · intro h n hmem
    have hn : ¬ ((spoken_segments d).length < 8) := not_lt.mpr h
    simp only [validate_episode_structure, if_neg hn, List.nil_append] at hmem
    by_cases hd : has_ai_disclosure (d.take 4) = true
    · rw [if_pos hd, List.append_nil] at hmem
      obtain ⟨sp, hsp⟩ := dup_intro_warnings_shape _ _ _ hmem
      exact too_short_warning_ne_dup n sp hsp
    · rw [if_neg hd] at hmem
      rcases List.mem_append.mp hmem with h1 | h2
      · obtain ⟨sp, hsp⟩ := dup_intro_warnings_shape _ _ _ h1
        exact too_short_warning_ne_dup n sp hsp
      · simp at h2
        exact too_short_warning_ne_disclosure n h2

/-- Five spoken segments, as in the short-episode scenario of the spec. -/
def fiveSpokenDialogue : List DialogueSegment :=
  [{ speaker := "ALEX", text := "one", timestamp := 0 },
   { speaker := "MAYA", text := "two", timestamp := 1 },
   { speaker := "ALEX", text := "three", timestamp := 2 },
   { speaker := "MAYA", text := "four", timestamp := 3 },
   { speaker := "ALEX", text := "five", timestamp := 4 }]

/-- Witness for C8: the five-spoken-segment dialogue is invalid with a
warning containing "too short". -/
theorem validate_episode_too_short_witness :
    ((validate_episode_structure fiveSpokenDialogue).valid = false) ∧
    (∃ w ∈ (validate_episode_structure fiveSpokenDialogue).warnings,
      pyIn "too short" w = true) := by
  have h := validate_episode_too_short fiveSpokenDialogue
  refine ⟨?_, h.2.1 (by decide)⟩
  rw [h.1]
  decide

/-- C10: with at least 8 spoken segments the dialogue is valid even when
no AI disclosure phrase occurs in the first 4 segments; the missing
disclosure only appends its warning and never clears the valid flag. -/
theorem validate_missing_disclosure_only_warns (d : List DialogueSegment)
    (h8 : 8 ≤ (spoken_segments d).length)
    (hnd : has_ai_disclosure (d.take 4) = false) :
    (validate_episode_structure d).valid = true ∧
    "Missing AI host disclosure in introduction" ∈
      (validate_episode_structure d).warnings := by
  have hn : ¬ ((spoken_segments d).length < 8) := not_lt.mpr h8
  constructor
  · simp [validate_episode_structure, hn]
  · simp [validate_episode_structure, hn, hnd]

/-- Eight spoken segments with no disclosure phrase anywhere. -/
def eightSpokenDialogue : List DialogueSegment :=
  [{ speaker := "ALEX", text := "one", timestamp := 0 },
   { speaker := "MAYA", text := "two", timestamp := 1 },
   { speaker := "ALEX", text := "three", timestamp := 2 },
   { speaker := "MAYA", text := "four", timestamp := 3 },
   { speaker := "ALEX", text := "five", timestamp := 4 },
   { speaker := "MAYA", text := "six", timestamp := 5 },
   { speaker := "ALEX", text := "seven", timestamp := 6 },
   { speaker := "MAYA", text := "eight", timestamp := 7 }]

/-- Witness for C10. -/
theorem validate_missing_disclosure_only_warns_witness :
    (validate_episode_structure eightSpokenDialogue).valid = true ∧
    "Missing AI host disclosure in introduction" ∈
      (validate_episode_structure eightSpokenDialogue).warnings :=
  validate_missing_disclosure_only_warns eightSpokenDialogue
    (by decide) (by decide)

/-! ## Transformation quality gate

Modelled from the spec: the quality scoring and single-retry logic of the
enhanced transformation engine is not part of the sources under src/ (the
engine shipped there performs no scoring); the formula and the retry rule
below follow the specification text word for word. -/

/-- Modelled from the spec: one parsed transformation attempt together
with its measured stray-English ratio and explained-terminology ratio. -/
structure TransformAttempt where
  content : List DialogueSegment
  englishFrac : ℚ
  explainedFrac : ℚ
deriving DecidableEq

/-- Modelled from the spec: the combined naturalness score
0.7 * (1 - min(1, 10 * english_ratio)) + 0.3 * explanation_ratio. -/
def naturalness_score (englishFrac explainedFrac : ℚ) : ℚ :=
  7 / 10 * (1 - min 1 (10 * englishFrac)) + 3 / 10 * explainedFrac

/-- The score of an attempt. -/
def attemptScore (a : TransformAttempt) : ℚ :=
  naturalness_score a.englishFrac a.explainedFrac

/-- Modelled from the spec: the quality gate performs the first model
call, and when its score is below 0.8 performs exactly one retry with a
stricter prompt and accepts that result unconditionally.  The second
component counts the model calls made. -/
def quality_gate (first retry : TransformAttempt) :
    TransformAttempt × Nat :=
  if attemptScore first < 4 / 5 then (retry, 2) else (first, 1)

/-- C5: a first pass scoring below 0.8 triggers exactly one additional
model call (two in total, never one, never three) and the retry result is
accepted unconditionally, whatever its own score; a first pass scoring at
least 0.8 performs no retry. -/
theorem quality_gate_single_retry (first retry : TransformAttempt)
    (hlow : attemptScore first < 4 / 5) :
    quality_gate first retry = (retry, 2) ∧
    (4 / 5 ≤ attemptScore first →
      quality_gate first retry = (first, 1)) := by
  constructor
  · simp [quality_gate, hlow]
  · intro h
    exact absurd hlow (not_lt.mpr h)

/-- Witness for C5: a first attempt that is half stray English scores 0,
which is below 0.8, and the gate returns the retry attempt with exactly
two model calls even though the retry also scores 0. -/
theorem quality_gate_single_retry_witness :
    (attemptScore { content := [], englishFrac := 1/2, explainedFrac := 0 } < 4 / 5) ∧
    (attemptScore { content := [], englishFrac := 1, explainedFrac := 0 } < 4 / 5) ∧
    quality_gate { content := [], englishFrac := 1/2, explainedFrac := 0 }
        { content := [], englishFrac := 1, explainedFrac := 0 } =
      ({ content := [], englishFrac := 1, explainedFrac := 0 }, 2) := by
  have h1 : attemptScore { content := [], englishFrac := 1/2, explainedFrac := 0 } < 4 / 5 := by
    norm_num [attemptScore, naturalness_score]
  have h2 : attemptScore { content := [], englishFrac := 1, explainedFrac := 0 } < 4 / 5 := by
    norm_num [attemptScore, naturalness_score]
  exact ⟨h1, h2,
    (quality_gate_single_retry _ _ h1).1⟩

/-! ## Personality / Dialogue Engine (personality_engine.py) -/

/-- personality_engine.py `_parse_conversation` body: scan stripped lines
for a case insensitive `HOST:` start (first host tested first), collect
matches in order with incrementing timestamps, ignore other lines. -/
def parse_conversation_go (host1U host2U : String) :
    List String → Nat → List DialogueSegment
  | [], _ => []
  | ln :: rest, ts =>
    let line := pyStrip ln
    if line.data.isEmpty then parse_conversation_go host1U host2U rest ts
    else if pyStartsWith (pyUpper line) (host1U ++ ":") then
      { speaker := host1U, text := pyStrip (afterFirstColon line),
        timestamp := ts } :: parse_conversation_go host1U host2U rest (ts + 1)
    else if pyStartsWith (pyUpper line) (host2U ++ ":") then
      { speaker := host2U, text := pyStrip (afterFirstColon line),
        timestamp := ts } :: parse_conversation_go host1U host2U rest (ts + 1)
    else parse_conversation_go host1U host2U rest ts

/-- personality_engine.py `_parse_conversation`. -/
def parse_conversation (text host1 host2 : String) : List DialogueSegment :=
  parse_conversation_go (pyUpper host1) (pyUpper host2)
    (pySplitChar '\n' (pyStrip text)) 0

/-- The hard coded two line fallback of `generate_episode_segments`. -/
def fallback_dialogue (host1 host2 topic : String) : List DialogueSegment :=
  [{ speaker := pyUpper host1,
     text := "Welcome to our discussion about " ++ topic ++ ".",
     timestamp := 0 },
   { speaker := pyUpper host2,
     text := "I" ++ aposStr ++ "m excited to explore this topic with you today.",
     timestamp := 1 }]

/-- personality_engine.py `generate_episode_segments`, from the cache
check on: a cached response is parsed and returned; otherwise the model
oracle is consulted, its reply parsed, and only a raised exception
produces the two line fallback.  Prompt construction is not modelled; the
oracle stands for the call on the already-built prompt. -/
def generate_episode_segments (cached : Option String)
    (llm : Except String String) (host1 host2 topic : String) :
    List DialogueSegment :=
  match cached with
  | some r => parse_conversation r host1 host2
  | none =>
    match llm with
    | Except.ok content => parse_conversation content host1 host2
    | Except.error _ => fallback_dialogue host1 host2 topic

/-- C7 counterexample: a model reply with no speaker tagged line parses to
zero segments, and `generate_episode_segments` hands the caller that empty
list, not the two line fallback. -/
theorem generate_segments_zero_parse_counterexample :
    generate_episode_segments none
        (Except.ok "Just some commentary with no speaker tags.")
        "alex" "maya" "AI" = [] ∧
    fallback_dialogue "alex" "maya" "AI" ≠ [] := by
  constructor
  · decide
  · decide

/-- C7 as amended: the two line fallback is returned exactly when the
model call raises; a reply that parses to zero speaker tagged segments is
returned as the empty dialogue list. -/
theorem generate_segments_fallback_on_error (host1 host2 topic e reply : String)
    (hz : parse_conversation reply host1 host2 = []) :
    generate_episode_segments none (Except.error e) host1 host2 topic =
      fallback_dialogue host1 host2 topic ∧
    (fallback_dialogue host1 host2 topic).length = 2 ∧
    generate_episode_segments none (Except.ok reply) host1 host2 topic = [] :=
  ⟨rfl, rfl, by simp [generate_episode_segments, hz]⟩

/-- Witness for the amended C7. -/
theorem generate_segments_fallback_on_error_witness :
    parse_conversation "hello there" "alex" "maya" = [] ∧
    (generate_episode_segments none (Except.error "boom") "alex" "maya" "AI" =
      fallback_dialogue "alex" "maya" "AI" ∧
    (fallback_dialogue "alex" "maya" "AI").length = 2 ∧
    generate_episode_segments none (Except.ok "hello there") "alex" "maya" "AI" = []) :=
  ⟨by decide,
    generate_segments_fallback_on_error "alex" "maya" "AI" "boom" "hello there"
      (by decide)⟩

/-- C2: whatever the queue, the voice ids and the sequence numbers, the
file list returned by `process_audio_batch` is exactly the resolved
(file, sequence) pairs listed in ascending sequence order — the final
re-sort by sequence undoes the internal (voice id, sequence) grouping
sort — and the queue is empty after the call. -/
theorem process_audio_batch_ordered (fileExists : String → Bool)
    (gen : String → String → Option String)
    (queue : List AudioRequest) (db : AudioCacheMap) :
    (process_audio_batch fileExists gen queue db).1 =
      (sorted_resolved fileExists gen queue db).map (fun p => p.1) ∧
    List.Sorted seqLe (sorted_resolved fileExists gen queue db) ∧
    (process_audio_batch fileExists gen queue db).2.2 = [] := by
  refine ⟨?_, List.sorted_insertionSort seqLe _, ?_⟩
  · by_cases h : queue.isEmpty
    · have hq : queue = [] := List.isEmpty_iff.mp h
      subst hq
      simp [process_audio_batch, sorted_resolved, resolve_audio_queue]
    · simp [process_audio_batch, h]
  · by_cases h : queue.isEmpty
    · simp [process_audio_batch, h]
      exact List.isEmpty_iff.mp h
    · simp [process_audio_batch, h]

/-- The sequence-preservation scenario of the spec: five requests queued
with sequences [5,1,3,2,4] across two voices come back in the order of
the sorted sequences [1,2,3,4,5]. -/
def scenarioQueue : List AudioRequest :=
  [{ text := "s5", voice_id := "vB", sequence := 5 },
   { text := "s1", voice_id := "vA", sequence := 1 },
   { text := "s3", voice_id := "vB", sequence := 3 },
   { text := "s2", voice_id := "vA", sequence := 2 },
   { text := "s4", voice_id := "vB", sequence := 4 }]

/-- The spec scenario computed: the returned files follow the sequence
order 1..5 although the internal grouping sort interleaved the voices. -/
theorem process_audio_batch_scenario :
    (process_audio_batch (fun _ => true) (fun t _ => some ("f" ++ t))
        scenarioQueue []).1 = ["fs1", "fs2", "fs3", "fs4", "fs5"] := by
  decide

/-! ## Transformation Engine (transformation.py `TransformationEngine`)

The configuration tables of `ConstellationConfig` (voice library, podcast
titles, standard sections, guidelines, regional examples) are carried as
an explicit configuration value: config.py is not under src/ and the
claims quantify over languages anyway.  The transformation cache lookup
is modelled as the decoded segment list (the JSON round trip of the
source is the identity on the stored fields); topic, cost tier and
reference material only shape the prompt handed to the model oracle and
do not appear in the embedded logic. -/

instance : Inhabited DialogueSegment :=
  ⟨{ speaker := "", text := "", timestamp := 0 }⟩

/-- The configuration tables read by the transformation engine. -/
structure TransformConfig where
  voice_library : List (String × List String)
  podcast_titles : List (String × String)
  standard_intros : List (String × String)
  standard_outros : List (String × String)
  guideline_langs : List String
  terminology : List (String × List (String × String))
  regional_examples : List (String × List (String × String))

/-- transformation.py `localize_podcast_title`. -/
def localize_podcast_title (cfg : TransformConfig) (lang : String) : String :=
  (alookup cfg.podcast_titles lang).getD "AI Builders"

/-- transformation.py `get_language_intro`. -/
def get_language_intro (cfg : TransformConfig) (lang : String) : String :=
  (alookup cfg.standard_intros lang).getD ""

/-- transformation.py `get_language_outro`. -/
def get_language_outro (cfg : TransformConfig) (lang : String) : String :=
  (alookup cfg.standard_outros lang).getD ""

/-- The terminology table of the guidelines for a language. -/
def terminology_of (cfg : TransformConfig) (lang : String) : List (String × String) :=
  (alookup cfg.terminology lang).getD []

/-- The regional examples for a language (empty when absent, as in the
membership-guarded reads of the source). -/
def regional_examples_of (cfg : TransformConfig) (lang : String) :
    List (String × String) :=
  (alookup cfg.regional_examples lang).getD []

/-- transformation.py `_get_speaker_mapping`: pair up the host lists of
the two voice libraries (up to the shorter one), uppercased; a missing
library is the KeyError of the source. -/
def get_speaker_mapping (cfg : TransformConfig) (src tgt : String) :
    Option (List (String × String)) :=
  match alookup cfg.voice_library src, alookup cfg.voice_library tgt with
  | some hs, some ht => some ((hs.zip ht).map (fun p => (pyUpper p.1, pyUpper p.2)))
  | _, _ => none

/-- The intro window of `_simple_detect_sections`: from the marker, up to
10 indices, stopping after (and including) a further MUSIC segment. -/
def take_through_music (segs : List DialogueSegment) (start : Nat) :
    List Nat → List Nat
  | [] => []
  | j :: rest =>
    j :: (if start < j && ((segs.getD j default).speaker == "MUSIC") then []
          else take_through_music segs start rest)

/-- Intro window indices for a marker at i. -/
def intro_window (segs : List DialogueSegment) (i : Nat) : List Nat :=
  take_through_music segs i (List.range' i (min (i + 10) segs.length - i))

/-- The outro window of `_simple_detect_sections`: up to 10 indices
ending at the marker; when an earlier MUSIC segment sits in the window
the source keeps only that one index (append, filter to at-least-j,
break). -/
def outro_window (segs : List DialogueSegment) (i : Nat) : List Nat :=
  let start := i - 9
  let w := List.range' start (i + 1 - start)
  match w.find? (fun j => decide (j < i) &&
      ((segs.getD j default).speaker == "MUSIC")) with
  | some j0 => [j0]
  | none => w

/-- transformation.py `_simple_detect_sections`: locate the first
[INTRO MUSIC] and [OUTRO MUSIC] marker segments and take windows around
them, with first/last-5 position fallbacks and an overlap cleanup that
assigns an overlapping index to the outro from the midpoint on (the
source removes from Python lists; these windows are duplicate free so the
removal is a filter).  Returns (intro indices, outro indices). -/
def simple_detect_sections (segs : List DialogueSegment) :
    List Nat × List Nat :=
  let introMarker := (segs.enum).find?
    (fun p => p.2.speaker == "MUSIC" && p.2.text == "[INTRO MUSIC]")
  let outroMarker := (segs.enum).find?
    (fun p => p.2.speaker == "MUSIC" && p.2.text == "[OUTRO MUSIC]")
  let intro := match introMarker with
    | some p => intro_window segs p.1
    | none => List.range (min 5 segs.length)
  let outro := match outroMarker with
    | some p => outro_window segs p.1
    | none => List.range' (segs.length - 5) (segs.length - (segs.length - 5))
  let mid := segs.length / 2
  (intro.filter (fun idx => ! (outro.contains idx && decide (mid ≤ idx))),
   outro.filter (fun idx => ! (intro.contains idx && decide (idx < mid))))

/-- The middle (content) segments: everything whose index is in neither
window, in ascending index order. -/
def content_segments (segs : List DialogueSegment) : List DialogueSegment :=
  let sections := simple_detect_sections segs
  let standard := sections.1 ++ sections.2
  ((segs.enum).filter (fun p => ! standard.contains p.1)).map (fun p => p.2)

/-- Everything before the first colon of a part. -/
def beforeFirstColon (s : String) : String :=
  String.mk (s.data.takeWhile (fun c => ! (c == ':')))

/-- Body of `_parse_standard_section` over the double newline parts. -/
def parse_standard_section_go : List String → Nat → List DialogueSegment
  | [], _ => []
  | part0 :: rest, ts =>
    let part := pyStrip part0
    if part.data.isEmpty then parse_standard_section_go rest ts
    else if pyStartsWith part "[INTRO MUSIC]" || pyStartsWith part "[OUTRO MUSIC]" then
      { speaker := "MUSIC", text := part, timestamp := ts } ::
        parse_standard_section_go rest (ts + 1)
    else if part.data.any (fun c => c == ':') then
      { speaker := pyStrip (beforeFirstColon part),
        text := pyStrip (afterFirstColon part), timestamp := ts } ::
        parse_standard_section_go rest (ts + 1)
    else parse_standard_section_go rest ts

/-- transformation.py `_parse_standard_section`. -/
def parse_standard_section (t : String) : List DialogueSegment :=
  parse_standard_section_go (pySplitOnStr ("\n" ++ "\n") t) 0

/-- The key order of the `speaker_map` dict of
`_parse_transformed_content`: first occurrence order without duplicates. -/
def insertion_order_keys_go (seen : List String) : List String → List String
  | [] => []
  | s :: rest =>
    if seen.contains s then insertion_order_keys_go seen rest
    else s :: insertion_order_keys_go (s :: seen) rest

/-- Dict key list of the original speakers. -/
def insertion_order_keys (l : List String) : List String :=
  insertion_order_keys_go [] l

/-- First tier of `_parse_transformed_content`: scan stripped non blank
lines for a known `SPEAKER:` start (case insensitive on the line), open a
segment per match, append other lines to the open segment, flush on the
next match and at the end.  A flush happens only for a truthy speaker and
a non empty collected text list, as in the source. -/
def scan_lines (keys : List String) :
    List String → Option String → List String → Nat → List DialogueSegment
  | [], cur, curText, ts =>
    (match cur with
     | some sp =>
       if ! sp.data.isEmpty && ! curText.isEmpty then
         [{ speaker := sp, text := pyJoin " " curText, timestamp := ts }]
       else []
     | none => [])
  | ln :: rest, cur, curText, ts =>
    let line := pyStrip ln
    if line.data.isEmpty then scan_lines keys rest cur curText ts
    else
      match keys.find? (fun sp => pyStartsWith (pyUpper line) (sp ++ ":")) with
      | some sp =>
        let newText := [pyStrip (afterFirstColon line)]
        (match cur with
         | some prev =>
           if ! prev.data.isEmpty && ! curText.isEmpty then
             { speaker := prev, text := pyJoin " " curText, timestamp := ts } ::
               scan_lines keys rest (some sp) newText (ts + 1)
           else scan_lines keys rest (some sp) newText ts
         | none => scan_lines keys rest (some sp) newText ts)
      | none =>
        (match cur with
         | some prev =>
           if ! prev.data.isEmpty then
             scan_lines keys rest cur (curText ++ [line]) ts
           else scan_lines keys rest cur curText ts
         | none => scan_lines keys rest cur curText ts)

/-- Uppercase ASCII letter. -/
def isUpperAZ (c : Char) : Bool := decide ('A' ≤ c) && decide (c ≤ 'Z')

/-- One attempt of the second tier split pattern (newline, whitespace,
capital letters, colon, whitespace) at the start of the text.  The greedy
runs are deterministic because the character classes are disjoint. -/
def tier2Match : List Char → Option (List Char × List Char)
  | '\n' :: rest =>
    let afterWs := rest.dropWhile isPyWS
    let letters := afterWs.takeWhile isUpperAZ
    if letters.isEmpty then none
    else
      match afterWs.drop letters.length with
      | ':' :: rest2 => some (letters, rest2.dropWhile isPyWS)
      | _ => none
  | _ => none

/-- Second tier splitter: fields and captured speaker runs alternate, as
with a capturing split.  Fuelled by the text length (never exhausted). -/
def tier2_split_go : Nat → List Char → List Char → List (List Char)
  | _, buf, [] => [buf.reverse]
  | 0, buf, s => [buf.reverse ++ s]
  | fuel + 1, buf, c :: rest =>
    match tier2Match (c :: rest) with
    | some (letters, after) =>
      buf.reverse :: letters :: tier2_split_go fuel [] after
    | none => tier2_split_go fuel (c :: buf) rest

/-- The capturing split of the second tier over the raw reply. -/
def tier2_parts (text : String) : List String :=
  (tier2_split_go text.data.length [] text.data).map String.mk

/-- Pair successive (speaker, text) fields, keeping those whose speaker
matches an original speaker up to case; the counter is the pair index. -/
def tier2_pairs (keys : List String) : Nat → List String → List DialogueSegment
  | _, [] => []
  | _, [_] => []
  | n, spk :: txt :: rest =>
    match keys.find? (fun orig => pyUpper orig == pyUpper spk) with
    | some orig =>
      { speaker := orig, text := pyStrip txt, timestamp := n } ::
        tier2_pairs keys (n + 1) rest
    | none => tier2_pairs keys (n + 1) rest

/-- Second tier of `_parse_transformed_content`. -/
def tier2_parse (keys : List String) (text : String) : List DialogueSegment :=
  let parts := tier2_parts text
  if parts.length > 1 then tier2_pairs keys 0 parts.tail else []

/-- Third tier of `_parse_transformed_content`: chop the non blank lines
into as many even slices as there are original segments (the last slice
takes the remainder) and zip them positionally onto the original
speakers; empty slices are skipped. -/
def tier3_zip (lines : List String) (origSegs : List DialogueSegment) :
    List DialogueSegment :=
  let tps := lines.length / origSegs.length
  (origSegs.enum).filterMap (fun p =>
    let start := p.1 * tps
    let stop := if p.1 < origSegs.length - 1 then start + tps else lines.length
    let txt := pyJoin " " ((lines.drop start).take (stop - start))
    if txt.data.isEmpty then none
    else some { speaker := p.2.speaker, text := txt, timestamp := p.1 })

/-- transformation.py `_parse_transformed_content` with its three tiers;
the third tier divides by the number of original segments, which raises
on an empty list exactly as the source does inside its try block. -/
def parse_transformed_content (text : String)
    (origSegs : List DialogueSegment) : Except String (List DialogueSegment) :=
  let keys := insertion_order_keys (origSegs.map (fun s => s.speaker))
  let tier1 := scan_lines keys (pySplitChar '\n' (pyStrip text)) none [] 0
  if ! tier1.isEmpty then Except.ok tier1
  else
    let tier2 := tier2_parse keys text
    if ! tier2.isEmpty then Except.ok tier2
    else if origSegs.isEmpty then
      Except.error "ZeroDivisionError: integer division or modulo by zero"
    else
      Except.ok (tier3_zip
        ((pySplitChar '\n' (pyStrip text)).filter
          (fun l => ! (pyStrip l).data.isEmpty))
        origSegs)

/-- Reassign timestamps sequentially from n, as the reassembly loops do. -/
def renumberFrom (n : Nat) : List DialogueSegment → List DialogueSegment
  | [] => []
  | s :: rest => { s with timestamp := n } :: renumberFrom (n + 1) rest

/-- The MULTILINE `^SPEAKER:` substitution of
`_transform_with_preserved_sections`: replace the tag at the start of
each line (case sensitive, exactly like the compiled pattern). -/
def line_sub (srcSp tgtSp : String) (text : String) : String :=
  pyJoin "\n" ((pySplitChar '\n' text).map (fun ln =>
    if pyStartsWith ln (srcSp ++ ":") then
      tgtSp ++ ":" ++ pyDropChars (srcSp.length + 1) ln
    else ln))

/-- The manual substitution loop over the raw model reply: per mapping
entry, the line tag substitution followed by the podcast title
replacement. -/
def apply_substitutions (mapping : List (String × String))
    (srcTitle tgtTitle : String) (text : String) : String :=
  mapping.foldl (fun acc p => pyReplace (line_sub p.1 p.2 acc) srcTitle tgtTitle)
    text

/-- transformation.py `_extract_regional_adaptations`. -/
def extract_regional_adaptations (cfg : TransformConfig) (text tgt : String) :
    List String :=
  ((regional_examples_of cfg tgt).filter (fun p =>
      pyIn (pyLower p.1) (pyLower text) || pyIn (pyLower p.2) (pyLower text))).map
    (fun p => "Adapted " ++ p.1 ++ " using regional context")
  ++ ["Content culturally adapted for " ++ tgt ++ " speakers"]

/-- The result built from a transformation cache hit: limited info, as in
the source (empty adaptations and mappings). -/
def cached_transformation_result (src tgt : String)
    (original cachedSegs : List DialogueSegment) : TransformationResult :=
  { original_language := src, target_language := tgt,
    original_content := original, transformed_content := cachedSegs,
    regional_adaptations := [], terminology_mappings := [] }

/-- transformation.py `transform_content`, full transform branch: the
guidelines check raises before the try block; inside the try the model
oracle reply is parsed (an oracle exception or a parse exception falls to
the except branch, which returns the original content with a diagnostic
note). -/
def transform_full (cfg : TransformConfig) (llm : Except String String)
    (original : List DialogueSegment) (src tgt : String) :
    Except String TransformationResult :=
  if ! (cfg.guideline_langs.contains tgt) then
    Except.error ("No transformation guidelines available for " ++ tgt)
  else
    match llm with
    | Except.error e =>
      Except.ok
        { original_language := src, target_language := tgt,
          original_content := original, transformed_content := original,
          regional_adaptations := ["Error during transformation: " ++ e],
          terminology_mappings := [] }
    | Except.ok reply =>
      match parse_transformed_content reply original with
      | Except.error pe =>
        Except.ok
          { original_language := src, target_language := tgt,
            original_content := original, transformed_content := original,
            regional_adaptations := ["Error during transformation: " ++ pe],
            terminology_mappings := [] }
      | Except.ok segs =>
        Except.ok
          { original_language := src, target_language := tgt,
            original_content := original, transformed_content := segs,
            regional_adaptations := extract_regional_adaptations cfg reply tgt,
            terminology_mappings := terminology_of cfg tgt }

/-- transformation.py `_transform_with_preserved_sections`: cache check,
section detection, guidelines check and speaker mapping (both raising
outside the try block), then inside the try the model reply goes through
the deterministic tag/title substitutions, the three tier parse, a second
speaker remap over the parsed segments, and reassembly between the target
language standard sections with sequential timestamps; any exception
inside the try degrades to the original content with an Error note. -/
def transform_with_preserved_sections (cfg : TransformConfig)
    (cached : Option (List DialogueSegment)) (llm : Except String String)
    (original : List DialogueSegment) (src tgt : String) :
    Except String TransformationResult :=
  match cached with
  | some segs => Except.ok (cached_transformation_result src tgt original segs)
  | none =>
    let contentSegs := content_segments original
    if ! (cfg.guideline_langs.contains tgt) then
      Except.error ("No transformation guidelines available for " ++ tgt)
    else
      match get_speaker_mapping cfg src tgt with
      | none => Except.error "KeyError: voice library"
      | some mapping =>
        let srcTitle := localize_podcast_title cfg src
        let tgtTitle := localize_podcast_title cfg tgt
        match llm with
        | Except.error e =>
          Except.ok
            { original_language := src, target_language := tgt,
              original_content := original, transformed_content := original,
              regional_adaptations := ["Error: " ++ e],
              terminology_mappings := [] }
        | Except.ok reply =>
          let text := apply_substitutions mapping srcTitle tgtTitle reply
          match parse_transformed_content text contentSegs with
          | Except.error pe =>
            Except.ok
              { original_language := src, target_language := tgt,
                original_content := original, transformed_content := original,
                regional_adaptations := ["Error: " ++ pe],
                terminology_mappings := [] }
          | Except.ok parsed =>
            let introSegs := parse_standard_section (get_language_intro cfg tgt)
            let outroSegs := parse_standard_section (get_language_outro cfg tgt)
            let remapped := parsed.map (fun s =>
              match alookup mapping s.speaker with
              | some t => { s with speaker := t }
              | none => s)
            Except.ok
              { original_language := src, target_language := tgt,
                original_content := original,
                transformed_content :=
                  renumberFrom 0 (introSegs ++ remapped ++ outroSegs),
                regional_adaptations := extract_regional_adaptations cfg text tgt,
                terminology_mappings := terminology_of cfg tgt }

/-- transformation.py `transform_content`: transformation cache check
(the cached string decoded back to segments), then either the preserved
sections path or the full transform. -/
def transform_content (cfg : TransformConfig)
    (cached : Option (List DialogueSegment)) (llm : Except String String)
    (original : List DialogueSegment) (src tgt : String) (preserve : Bool) :
    Except String TransformationResult :=
  match cached with
  | some segs => Except.ok (cached_transformation_result src tgt original segs)
  | none =>
    if preserve then
      transform_with_preserved_sections cfg none llm original src tgt
    else transform_full cfg llm original src tgt

/-- C1: when the model call raises (the cache missed, the guidelines
check passed, and in preserve mode the voice libraries are present, so
the call is reached), `transform_content` returns normally with the
original segment list as the transformed content — never empty, never
partially built — and a single diagnostic note carrying the error text. -/
theorem transform_content_error_passthrough (cfg : TransformConfig)
    (original : List DialogueSegment) (src tgt e : String) (preserve : Bool)
    (hg : cfg.guideline_langs.contains tgt = true)
    (hv : preserve = true → (get_speaker_mapping cfg src tgt).isSome = true) :
    transform_content cfg none (Except.error e) original src tgt preserve =
      Except.ok
        { original_language := src, target_language := tgt,
          original_content := original, transformed_content := original,
          regional_adaptations :=
            [(if preserve then "Error: " else "Error during transformation: ") ++ e],
          terminology_mappings := [] } := by
  have hgm : tgt ∈ cfg.guideline_langs := by simpa using hg
  cases preserve with
  | false => simp [transform_content, transform_full, hgm]
  | true =>
    obtain ⟨mapping, hm⟩ := Option.isSome_iff_exists.mp (hv rfl)
    simp [transform_content, transform_with_preserved_sections, hgm, hm]

/-- A concrete configuration with english and hindi hosts, titles,
standard sections and guidelines. -/
def cexConfig : TransformConfig :=
  { voice_library := [("english", ["alex", "maya"]), ("hindi", ["arjun", "priya"])],
    podcast_titles := [("english", "AI Builders"), ("hindi", "AI Nirmata")],
    standard_intros := [("hindi", "[INTRO MUSIC]\n\nARJUN: Namaste doston.")],
    standard_outros := [("hindi", "PRIYA: Milte hain agli baar.\n\n[OUTRO MUSIC]")],
    guideline_langs := ["hindi"],
    terminology := [("hindi", [])],
    regional_examples := [] }

/-- A concrete english dialogue: intro music plus a second music sting
(which closes the intro window after two segments), one content segment,
nine further spoken segments inside the outro window, and the outro
marker. -/
def cexOriginal : List DialogueSegment :=
  [{ speaker := "MUSIC", text := "[INTRO MUSIC]", timestamp := 0 },
   { speaker := "MUSIC", text := "[STING]", timestamp := 1 },
   { speaker := "ALEX", text := "Content segment to transform.", timestamp := 2 },
   { speaker := "MAYA", text := "w3", timestamp := 3 },
   { speaker := "ALEX", text := "w4", timestamp := 4 },
   { speaker := "MAYA", text := "w5", timestamp := 5 },
   { speaker := "ALEX", text := "w6", timestamp := 6 },
   { speaker := "MAYA", text := "w7", timestamp := 7 },
   { speaker := "ALEX", text := "w8", timestamp := 8 },
   { speaker := "MAYA", text := "w9", timestamp := 9 },
   { speaker := "ALEX", text := "w10", timestamp := 10 },
   { speaker := "MAYA", text := "w11", timestamp := 11 },
   { speaker := "MUSIC", text := "[OUTRO MUSIC]", timestamp := 12 }]

/-- Witness for C1, in preserve mode at the concrete configuration. -/
theorem transform_content_error_passthrough_witness :
    (cexConfig.guideline_langs.contains "hindi" = true) ∧
    ((get_speaker_mapping cexConfig "english" "hindi").isSome = true) ∧
    transform_content cexConfig none (Except.error "boom") cexOriginal
        "english" "hindi" true =
      Except.ok
        { original_language := "english", target_language := "hindi",
          original_content := cexOriginal, transformed_content := cexOriginal,
          regional_adaptations := ["Error: boom"],
          terminology_mappings := [] } := by
  refine ⟨by decide, by decide, ?_⟩
  have h := transform_content_error_passthrough cexConfig cexOriginal
    "english" "hindi" "boom" true (by decide) (fun _ => by decide)
  rw [h]
  have hs : ((if true = true then "Error: "
      else "Error during transformation: ") ++ "boom" : String) =
      "Error: boom" := by decide
  rw [hs]

/-- A model reply that already uses the target host tag but mentions the
source host MAYA mid sentence, which no deterministic pass touches. -/
def cexReply : String := "ARJUN: Thanks MAYA, great point about AI Builders."

/-- Transformed content of a transformation result, empty on error. -/
def okContent : Except String TransformationResult → List DialogueSegment
  | Except.ok r => r.transformed_content
  | Except.error _ => []

/-- C6 counterexample: on this successful preserve-sections
transformation the source host label MAYA (a key of the speaker mapping)
still occurs inside a transformed segment text: the deterministic
find-and-replace pass only rewrites line leading `NAME:` tags and the
podcast title, not host names mentioned inside the text. -/
theorem preserved_sections_source_label_in_text :
    get_speaker_mapping cexConfig "english" "hindi" =
      some [("ALEX", "ARJUN"), ("MAYA", "PRIYA")] ∧
    (transform_with_preserved_sections cexConfig none (Except.ok cexReply)
        cexOriginal "english" "hindi").isOk = true ∧
    (okContent (transform_with_preserved_sections cexConfig none
        (Except.ok cexReply) cexOriginal "english" "hindi")).any
      (fun s => pyIn "MAYA" s.text) = true := by
  refine ⟨by decide, by decide, by decide⟩

/-! ## Lemmas for the amended speaker remap claim -/

/-- Keys in dict insertion order all come from the input list. -/
theorem insertion_order_keys_go_subset :
    ∀ (l seen : List String), ∀ x ∈ insertion_order_keys_go seen l, x ∈ l := by
  intro l
  induction l with
  | nil => intro seen x hx; simp [insertion_order_keys_go] at hx
  | cons s rest ih =>
    intro seen x hx
    rw [insertion_order_keys_go] at hx
    by_cases hseen : (seen.contains s) = true
    · rw [if_pos hseen] at hx
      exact List.mem_cons_of_mem s (ih seen x hx)
    · rw [if_neg hseen] at hx
      rcases List.mem_cons.mp hx with h1 | h2
      · exact h1 ▸ List.mem_cons_self s rest
      · exact List.mem_cons_of_mem s (ih (s :: seen) x h2)

/-- The dict key list is contained in the original list. -/
theorem insertion_order_keys_subset (l : List String) :
    ∀ x ∈ insertion_order_keys l, x ∈ l :=
  insertion_order_keys_go_subset l []

/-- Every speaker produced by the first parsing tier is a known key,
provided the open speaker is. -/
theorem scan_lines_speakers (keys : List String) :
    ∀ (lines : List String) (cur : Option String) (curText : List String)
      (ts : Nat), (∀ c, cur = some c → c ∈ keys) →
      ∀ s ∈ scan_lines keys lines cur curText ts, s.speaker ∈ keys := by
  intro lines
  induction lines with
  | nil =>
    intro cur curText ts hcur s hs
    cases cur with
    | none => simp [scan_lines] at hs
    | some sp =>
      simp only [scan_lines] at hs
      by_cases hc : (! sp.data.isEmpty && ! curText.isEmpty) = true
      · rw [if_pos hc] at hs
        rcases List.mem_singleton.mp hs with rfl
        exact hcur sp rfl
      · rw [if_neg hc] at hs
        simp at hs
  | cons ln rest ih =>
    intro cur curText ts hcur s hs
    cases cur with
    | none =>
      simp only [scan_lines] at hs
      by_cases hline : ((pyStrip ln).data.isEmpty) = true
      · rw [if_pos hline] at hs
        exact ih _ _ _ hcur s hs
      · rw [if_neg hline] at hs
        cases hf : keys.find?
            (fun sp => pyStartsWith (pyUpper (pyStrip ln)) (sp ++ ":")) with
        | some sp =>
          have hspmem : sp ∈ keys := List.mem_of_find?_eq_some hf
          simp only [hf] at hs
          refine ih _ _ _ ?_ s hs
          intro c hc
          cases hc
          exact hspmem
        | none =>
          simp only [hf] at hs
          exact ih _ _ _ hcur s hs
    | some prev =>
      simp only [scan_lines] at hs
      by_cases hline : ((pyStrip ln).data.isEmpty) = true
      · rw [if_pos hline] at hs
        exact ih _ _ _ hcur s hs
      · rw [if_neg hline] at hs
        cases hf : keys.find?
            (fun sp => pyStartsWith (pyUpper (pyStrip ln)) (sp ++ ":")) with
        | some sp =>
          have hspmem : sp ∈ keys := List.mem_of_find?_eq_some hf
          have hinv : ∀ c, (some sp : Option String) = some c → c ∈ keys := by
            intro c hc
            cases hc
            exact hspmem
          simp only [hf] at hs
          by_cases hc : (! prev.data.isEmpty && ! curText.isEmpty) = true
          · rw [if_pos hc] at hs
            rcases List.mem_cons.mp hs with rfl | hrec
            · exact hcur prev rfl
            · exact ih _ _ _ hinv s hrec
          · rw [if_neg hc] at hs
            exact ih _ _ _ hinv s hs
        | none =>
          simp only [hf] at hs
          by_cases hc : (! prev.data.isEmpty) = true
          · rw [if_pos hc] at hs
            exact ih _ _ _ hcur s hs
          · rw [if_neg hc] at hs
            exact ih _ _ _ hcur s hs

/-- Every speaker produced by the second parsing tier is a known key. -/
theorem tier2_pairs_speakers (keys : List String) :
    ∀ (k : Nat) (parts : List String), parts.length ≤ k →
      ∀ (n : Nat), ∀ s ∈ tier2_pairs keys n parts, s.speaker ∈ keys := by
  intro k
  induction k with
  | zero =>
    intro parts h n s hs
    rw [List.length_eq_zero.mp (Nat.le_zero.mp h)] at hs
    simp [tier2_pairs] at hs
  | succ k ih =>
    intro parts h n s hs
    match parts with
    | [] => simp [tier2_pairs] at hs
    | [x] => simp [tier2_pairs] at hs
    | spk :: txt :: rest =>
      rw [tier2_pairs] at hs
      cases hf : keys.find? (fun orig => pyUpper orig == pyUpper spk) with
      | some orig =>
        simp only [hf] at hs
        rcases List.mem_cons.mp hs with rfl | hrec
        · exact List.mem_of_find?_eq_some hf
        · exact ih rest (by simp at h; omega) (n + 1) s hrec
      | none =>
        simp only [hf] at hs
        exact ih rest (by simp at h; omega) (n + 1) s hs

/-- Every speaker produced by the third parsing tier is an original
speaker. -/
theorem tier3_zip_speakers (lines : List String)
    (origSegs : List DialogueSegment) :
    ∀ s ∈ tier3_zip lines origSegs,
      s.speaker ∈ origSegs.map (fun t => t.speaker) := by
  intro s hs
  simp only [tier3_zip] at hs
  rw [List.mem_filterMap] at hs
  obtain ⟨p, hp, hf⟩ := hs
  split at hf <;> split at hf <;>
    first
      | (rcases Option.some.inj hf with rfl
         exact List.mem_map_of_mem (fun t => t.speaker)
           (List.snd_mem_of_mem_enum hp))
      | simp at hf

/-- Every speaker produced by the whole second tier is a known key. -/
theorem tier2_parse_speakers (keys : List String) (text : String) :
    ∀ s ∈ tier2_parse keys text, s.speaker ∈ keys := by
  intro s hs
  simp only [tier2_parse] at hs
  split at hs
  · exact tier2_pairs_speakers keys (tier2_parts text).tail.length _ le_rfl 0 s hs
  · simp at hs

/-- Every speaker in a successfully parsed reply is a speaker of the
original segments handed to the parser. -/
theorem parse_transformed_content_speakers (text : String)
    (origSegs segs : List DialogueSegment)
    (h : parse_transformed_content text origSegs = Except.ok segs) :
    ∀ s ∈ segs, s.speaker ∈ origSegs.map (fun t => t.speaker) := by
  intro s hs
  have hkeys : ∀ x ∈ insertion_order_keys
      (origSegs.map (fun t => t.speaker)),
      x ∈ origSegs.map (fun t => t.speaker) :=
    insertion_order_keys_subset _
  simp only [parse_transformed_content] at h
  split at h
  · rcases Except.ok.inj h with rfl
    exact hkeys _ (scan_lines_speakers _ _ _ _ _ (by intro c hc; cases hc) s hs)
  · split at h
    · rcases Except.ok.inj h with rfl
      exact hkeys _ (tier2_parse_speakers _ _ s hs)
    · split at h
      · exact absurd h (by simp)
      · rcases Except.ok.inj h with rfl
        exact tier3_zip_speakers _ _ s hs

/-- The parser only raises on an empty original list. -/
theorem parse_transformed_content_ok (text : String)
    (origSegs : List DialogueSegment) (hne : origSegs ≠ []) :
    ∃ segs, parse_transformed_content text origSegs = Except.ok segs := by
  simp only [parse_transformed_content]
  split
  · exact ⟨_, rfl⟩
  · split
    · exact ⟨_, rfl⟩
    · split
      · rename_i hempty
        exact absurd (List.isEmpty_iff.mp hempty) hne
      · exact ⟨_, rfl⟩

/-- A looked-up value is one of the stored values. -/
theorem alookup_mem_snd {β : Type} :
    ∀ (m : List (String × β)) (k : String) (v : β),
      alookup m k = some v → v ∈ m.map Prod.snd := by
  intro m
  induction m with
  | nil => intro k v h; simp [alookup] at h
  | cons p rest ih =>
    intro k v h
    rw [alookup] at h
    by_cases hk : (p.1 == k) = true
    · rw [if_pos hk] at h
      rcases Option.some.inj h with rfl
      exact List.mem_cons_self _ _
    · rw [if_neg hk] at h
      exact List.mem_cons_of_mem _ (ih k v h)

/-- A key among the stored keys has a stored value. -/
theorem alookup_isSome_of_mem_fst {β : Type} :
    ∀ (m : List (String × β)) (k : String), k ∈ m.map Prod.fst →
      ∃ v, alookup m k = some v := by
  intro m
  induction m with
  | nil => intro k h; simp at h
  | cons p rest ih =>
    intro k h
    rw [alookup]
    by_cases hk : (p.1 == k) = true
    · exact ⟨p.2, if_pos hk⟩
    · rw [if_neg hk]
      rcases List.mem_cons.mp h with h1 | h2
    
      · exact absurd (beq_iff_eq.mpr h1.symm) hk
      · exact ih k h2

/-- Renumbering keeps each speaker. -/
theorem renumberFrom_speakers :
    ∀ (l : List DialogueSegment) (n : Nat),
      ∀ s ∈ renumberFrom n l, ∃ t ∈ l, s.speaker = t.speaker := by
  intro l
  induction l with
  | nil => intro n s hs; simp [renumberFrom] at hs
  | cons x rest ih =>
    intro n s hs
    rw [renumberFrom] at hs
    rcases List.mem_cons.mp hs with rfl | hrec
    · exact ⟨x, List.mem_cons_self _ _, rfl⟩
    · obtain ⟨t, ht, heq⟩ := ih (n + 1) s hrec
      exact ⟨t, List.mem_cons_of_mem _ ht, heq⟩

/-- C6 as amended: on a successful preserve-sections transformation whose
cache missed, whenever every content segment speaker is a mapped source
label, the target labels are distinct from the source labels and the
target language standard sections use no source label, no source host
label survives in any transformed segment SPEAKER field (the line tag
substitution plus the post-parse remap guarantee this); source host
labels inside the segment text are not covered (see the counterexample). -/
theorem preserved_sections_speaker_remap (cfg : TransformConfig)
    (original : List DialogueSegment) (src tgt reply : String)
    (mapping : List (String × String))
    (hg : cfg.guideline_langs.contains tgt = true)
    (hm : get_speaker_mapping cfg src tgt = some mapping)
    (hcontent : ∀ s ∈ content_segments original,
      s.speaker ∈ mapping.map Prod.fst)
    (hne : content_segments original ≠ [])
    (hvals : ∀ v ∈ mapping.map Prod.snd, v ∉ mapping.map Prod.fst)
    (hstd : ∀ s ∈ parse_standard_section (get_language_intro cfg tgt) ++
        parse_standard_section (get_language_outro cfg tgt),
        s.speaker ∉ mapping.map Prod.fst) :
    ∃ r, transform_with_preserved_sections cfg none (Except.ok reply)
        original src tgt = Except.ok r ∧
      ∀ s ∈ r.transformed_content, s.speaker ∉ mapping.map Prod.fst := by
  obtain ⟨parsed, hparse⟩ := parse_transformed_content_ok
    (apply_substitutions mapping (localize_podcast_title cfg src)
      (localize_podcast_title cfg tgt) reply)
    (content_segments original) hne
  have heq : transform_with_preserved_sections cfg none (Except.ok reply)
      original src tgt =
      Except.ok
        { original_language := src, target_language := tgt,
          original_content := original,
          transformed_content := renumberFrom 0
            (parse_standard_section (get_language_intro cfg tgt) ++
              (parsed.map (fun s =>
                match alookup mapping s.speaker with
                | some t => { s with speaker := t }
                | none => s)) ++
              parse_standard_section (get_language_outro cfg tgt)),
          regional_adaptations := extract_regional_adaptations cfg
            (apply_substitutions mapping (localize_podcast_title cfg src)
              (localize_podcast_title cfg tgt) reply) tgt,
          terminology_mappings := terminology_of cfg tgt } := by
    have hgm : tgt ∈ cfg.guideline_langs := by simpa using hg
    simp [transform_with_preserved_sections, hgm, hm, hparse]
  refine ⟨_, heq, ?_⟩
  intro s hs
  simp only at hs
  obtain ⟨t, ht, hsp⟩ := renumberFrom_speakers _ 0 s hs
  rw [hsp]
  rcases List.mem_append.mp ht with h1 | h2
  · rcases List.mem_append.mp h1 with hintro | hmid
    · exact hstd t (List.mem_append_left _ hintro)
    · obtain ⟨u, hu, rfl⟩ := List.mem_map.mp hmid
      have huk : u.speaker ∈ mapping.map Prod.fst := by
        have hsp2 := parse_transformed_content_speakers _ _ _ hparse u hu
        obtain ⟨w, hw, hws⟩ := List.mem_map.mp hsp2
        exact hws ▸ hcontent w hw
      obtain ⟨v, hv⟩ := alookup_isSome_of_mem_fst mapping u.speaker huk
      simp only [hv]
      exact hvals v (alookup_mem_snd mapping u.speaker v hv)
  · exact hstd t (List.mem_append_right _ h2)

/-- Witness for the amended C6 at the concrete configuration: the content
speakers are mapped source labels, and no transformed segment speaker
field is a source host label. -/
theorem preserved_sections_speaker_remap_witness :
    (∀ s ∈ content_segments cexOriginal,
      s.speaker ∈ ["ALEX", "MAYA"]) ∧
    (okContent (transform_with_preserved_sections cexConfig none
        (Except.ok cexReply) cexOriginal "english" "hindi")).all
      (fun s => ! (["ALEX", "MAYA"].contains s.speaker)) = true := by
  refine ⟨by decide, ?_⟩
  obtain ⟨r, heq, hall⟩ := preserved_sections_speaker_remap cexConfig
    cexOriginal "english" "hindi" cexReply
    [("ALEX", "ARJUN"), ("MAYA", "PRIYA")]
    (by decide) (by decide) (by decide) (by decide) (by decide) (by decide)
  rw [heq]
  simp only [okContent]
  rw [List.all_eq_true]
  intro s hs
  have h2 := hall s hs
  simpa using h2
